import Mathlib

/-!
# gemini-line-bot: the HTTP handlers of `main.go`

A shallow embedding of the three stateful handlers of `main.go`
(`generativeAi`, `lineCallback`, `newTopic`) together with `getInitialTopic`
and the wiring done in `main`.

* Go values that are pointers (`*GenerateContentResponse`, `*Candidate`,
  `*Content`, `*CallbackRequest`) are `Option`s; dereferencing `none` is the
  run-time panic `Panic.nilDereference`, indexing an empty slice is
  `Panic.indexOutOfRange`.
* The two SDK calls made by the handlers, `cs.SendMessage` and
  `bot.ReplyMessage`, are parameters (`Env`): the handlers are translated from
  the source and are generic in what the SDKs answer.  `W` is whatever state
  sits behind the SDK clients (network, remote services).
* A handler run is a `Run`: the effects it performed in order, the value of its
  captured `cs` afterwards, and how it ended (`Exit`).
* `main` passes `*cs` BY VALUE to each of the three handler constructors, so
  every handler closure owns a private `genai.ChatSession` copy; `Server`
  therefore carries three sessions.
-/

namespace GeminiLineBot

/-! ## Data model -/

/-- The Go interface `genai.Part`.  `Text` is `genai.Text`; every other dynamic
value (blob, nil, ...) is kept only through what `%v` prints for it. -/
inductive Part where
  | Text (s : String)
  | Other (rendering : String)
deriving DecidableEq, Repr

/-- The Go struct `genai.Content`. -/
structure Content where
  Parts : List Part
  Role : String
deriving DecidableEq, Repr

/-- The Go struct `genai.Candidate`; `Content` is a `*Content`. -/
structure Candidate where
  Content : Option Content
deriving DecidableEq, Repr

/-- The Go struct `genai.GenerateContentResponse`; `Candidates` is a `[]*Candidate`. -/
structure GenerateContentResponse where
  Candidates : List (Option Candidate)
deriving DecidableEq, Repr

/-- The Go struct `genai.ChatSession`, as far as `main.go` touches it. -/
structure ChatSession where
  History : List Content
deriving DecidableEq, Repr

/-- A Go `error` value.  `linebotErrInvalidSignature` is the package-level value
`linebot.ErrInvalidSignature`, which `lineCallback` compares against (main.go
55); `webhookErrInvalidSignature` is `webhook.ErrInvalidSignature`, the value of
that name in the package whose `ParseRequest` the handler calls (main.go 52).
The two are distinct error values, and `==` on errors is identity. -/
inductive Error where
  | linebotErrInvalidSignature
  | webhookErrInvalidSignature
  | other (msg : String)
deriving DecidableEq, Repr

/-- The message contents of `webhook.MessageEvent.Message`, by dynamic type. -/
inductive MessageContent where
  | TextMessageContent (Text : String)
  | StickerMessageContent (StickerId : String) (StickerResourceType : String)
  | other (typeName : String)
deriving DecidableEq, Repr

/-- The elements of `cb.Events`, by dynamic type. -/
inductive Event where
  | MessageEvent (ReplyToken : String) (Message : MessageContent)
  | other (typeName : String)
deriving DecidableEq, Repr

/-- The Go struct `webhook.CallbackRequest`. -/
structure CallbackRequest where
  Events : List Event
deriving DecidableEq, Repr

/-- The Go struct `messaging_api.TextMessage`. -/
structure TextMessage where
  Text : String
deriving DecidableEq, Repr

/-- The Go struct `messaging_api.ReplyMessageRequest`. -/
structure ReplyMessageRequest where
  ReplyToken : String
  Messages : List TextMessage
deriving DecidableEq, Repr

/-- A value stored in a `gin.H` map by the handlers. -/
inductive HValue where
  | str (s : String)
  | part (p : Part)
deriving DecidableEq, Repr

/-- The argument printed by a `log.Printf` call of `lineCallback`. -/
inductive LogArg where
  | err (e : Error)
  | typeOf (typeName : String)
deriving DecidableEq, Repr

/-- Everything a handler does to the outside, in program order. -/
inductive Effect where
  | SendMessage (parts : List Part)
  | ReplyMessage (req : ReplyMessageRequest)
  | LogPrintf (format : String) (arg : LogArg)
  | LogPrint (err : Error)
  | LogPrintln (text : String)
  | LogFatal (err : Error)
  | Status (code : Nat)
  | JSON (code : Nat) (body : List (String × HValue))
deriving DecidableEq, Repr

/-- The two run-time panics the handlers can raise. -/
inductive Panic where
  | nilDereference
  | indexOutOfRange
deriving DecidableEq, Repr

/-- How a handler invocation ends: it returns, `log.Fatal` ends the process
(`os.Exit(1)`), or the goroutine panics. -/
inductive Exit where
  | returned
  | fatal
  | panicked (p : Panic)
deriving DecidableEq, Repr

/-- What `cs.SendMessage(ctx, parts...)` leaves behind: the state behind the
client, the session it was called on, and the pair `(resp, err)`. -/
structure SendReturn (W : Type) where
  world : W
  cs : ChatSession
  resp : Option GenerateContentResponse
  err : Option Error

/-- What `bot.ReplyMessage(req)` leaves behind; the response value is discarded
by the handlers. -/
structure ReplyReturn (W : Type) where
  world : W
  err : Option Error

/-- The SDK calls used by the handlers. -/
structure Env (W : Type) where
  SendMessage : W → ChatSession → List Part → SendReturn W
  ReplyMessage : W → ReplyMessageRequest → ReplyReturn W

/-- One handler invocation. -/
structure Run (W : Type) where
  world : W
  cs : ChatSession
  effects : List Effect
  exit : Exit

/-! ## `main.go` -/

/-- The function `getInitialTopic` (main.go 159-175). -/
def getInitialTopic : List Content :=
  [ { Parts := [Part.Text ("คุณคือเทคโนโลยี จากอารยธรรมโบราณที่ดำรงอยู่มากว่า 5000 ปี. รอบรู้ประวัติศาสตร์ในยุคเก่ามาจนถึงปัจจุบัน " ++
        "เทคโนโลยีต่างๆ อารยธรรม สังคมมนุษย์ รวมทั้งความรู้มากมายในโลกนี้ เจ้าเล่ห์ แต่ช่างรอบรู้ ชอบพูดคัยและเล่าเรื่องให้คนอื่นฟัง เมื่อผู้คนถามมาเป็นภาษาอะไร คุณก็จะตอบมาเป็นภาษานั้น")],
      Role := "user" },
    { Parts := [Part.Text "ได้เลย ปิปิ้ป."],
      Role := "model" } ]

/-- The function `initialChat` (main.go 135-142): a fresh session whose history is
the seed. -/
def initialChat : ChatSession :=
  { History := getInitialTopic }

/-- The expression `resp.Candidates[0].Content.Parts[0]` (main.go 74 and 154),
with the panics of its two dereferences and two index operations. -/
def firstPart (resp : Option GenerateContentResponse) : Except Panic Part :=
  match resp with
  | none => Except.error Panic.nilDereference
  | some r =>
    match r.Candidates with
    | [] => Except.error Panic.indexOutOfRange
    | none :: _ => Except.error Panic.nilDereference
    | some c :: _ =>
      match c.Content with
      | none => Except.error Panic.nilDereference
      | some content =>
        match content.Parts with
        | [] => Except.error Panic.indexOutOfRange
        | p :: _ => Except.ok p

/-- The call `fmt.Sprintf("%v", part)` (main.go 74). -/
def sprintfV : Part → String
  | Part.Text s => s
  | Part.Other rendering => rendering

/-- The call `fmt.Sprintf("sticker id is %s, stickerResourceType is %s", id, ty)`
(main.go 91-92). -/
def stickerReply (StickerId StickerResourceType : String) : String :=
  "sticker id is " ++ StickerId ++ ", stickerResourceType is " ++ StickerResourceType

/-- The `if _, err = bot.ReplyMessage(...); err != nil` tail shared by both reply
sites (main.go 85-89 and 101-105). -/
def replyLog (err : Option Error) (sent : String) : Effect :=
  match err with
  | some e => Effect.LogPrint e
  | none => Effect.LogPrintln sent

/-- The closure returned by `generativeAi` (main.go 144-157), run on query
parameter `q` with captured session `cs`. -/
def generativeAi {W : Type} (env : Env W) (w : W) (cs : ChatSession) (q : String) : Run W :=
  let sent := env.SendMessage w cs [Part.Text q]
  match sent.err with
  | some err =>
    { world := sent.world, cs := sent.cs,
      effects := [Effect.SendMessage [Part.Text q], Effect.LogFatal err],
      exit := Exit.fatal }
  | none =>
    match firstPart sent.resp with
    | Except.error p =>
      { world := sent.world, cs := sent.cs,
        effects := [Effect.SendMessage [Part.Text q]],
        exit := Exit.panicked p }
    | Except.ok part =>
      { world := sent.world, cs := sent.cs,
        effects := [Effect.SendMessage [Part.Text q],
                    Effect.JSON 200 [("message", HValue.part part)]],
        exit := Exit.returned }

/-- One iteration of the `for _, event := range cb.Events` loop of
`lineCallback` (main.go 64-109). -/
def lineCallbackEvent {W : Type} (env : Env W) (w : W) (cs : ChatSession) (event : Event) :
    Run W :=
  match event with
  | Event.MessageEvent ReplyToken (MessageContent.TextMessageContent Text) =>
    let sent := env.SendMessage w cs [Part.Text Text]
    match sent.err with
    | some err =>
      { world := sent.world, cs := sent.cs,
        effects := [Effect.SendMessage [Part.Text Text], Effect.LogFatal err],
        exit := Exit.fatal }
    | none =>
      match firstPart sent.resp with
      | Except.error p =>
        { world := sent.world, cs := sent.cs,
          effects := [Effect.SendMessage [Part.Text Text]],
          exit := Exit.panicked p }
      | Except.ok part =>
        let respMsg := sprintfV part
        let req : ReplyMessageRequest :=
          { ReplyToken := ReplyToken, Messages := [{ Text := respMsg }] }
        let replied := env.ReplyMessage sent.world req
        { world := replied.world, cs := sent.cs,
          effects := [Effect.SendMessage [Part.Text Text], Effect.ReplyMessage req,
                      replyLog replied.err "Sent text reply."],
          exit := Exit.returned }
  | Event.MessageEvent ReplyToken
      (MessageContent.StickerMessageContent StickerId StickerResourceType) =>
    let replyMessage := stickerReply StickerId StickerResourceType
    let req : ReplyMessageRequest :=
      { ReplyToken := ReplyToken, Messages := [{ Text := replyMessage }] }
    let replied := env.ReplyMessage w req
    { world := replied.world, cs := cs,
      effects := [Effect.ReplyMessage req, replyLog replied.err "Sent sticker reply."],
      exit := Exit.returned }
  | Event.MessageEvent _ (MessageContent.other typeName) =>
    { world := w, cs := cs,
      effects := [Effect.LogPrintf "Unsupported message content: %T\n" (LogArg.typeOf typeName)],
      exit := Exit.returned }
  | Event.other _ =>
    { world := w, cs := cs, effects := [], exit := Exit.returned }

/-- The loop `for _, event := range cb.Events` (main.go 63-110): events are
handled in order; an iteration that does not return ends the loop with it. -/
def lineCallbackEvents {W : Type} (env : Env W) : W → ChatSession → List Event → Run W
  | w, cs, [] => { world := w, cs := cs, effects := [], exit := Exit.returned }
  | w, cs, event :: rest =>
    let first := lineCallbackEvent env w cs event
    match first.exit with
    | Exit.returned =>
      let others := lineCallbackEvents env first.world first.cs rest
      { world := others.world, cs := others.cs,
        effects := first.effects ++ others.effects, exit := others.exit }
    | _ => first

/-- The closure returned by `lineCallback` (main.go 50-112).  `cb` and `err` are
the two results of `webhook.ParseRequest(channelSecret, c.Request)`. -/
def lineCallback {W : Type} (env : Env W) (w : W) (cs : ChatSession)
    (cb : Option CallbackRequest) (err : Option Error) : Run W :=
  match err with
  | some e =>
    { world := w, cs := cs,
      effects := [Effect.LogPrintf "Cannot parse request: %+v\n" (LogArg.err e),
                  if e = Error.linebotErrInvalidSignature then Effect.Status 400
                  else Effect.Status 500],
      exit := Exit.returned }
  | none =>
    match cb with
    | none => { world := w, cs := cs, effects := [], exit := Exit.panicked Panic.nilDereference }
    | some req => lineCallbackEvents env w cs req.Events

/-- The closure returned by `newTopic` (main.go 126-133), run with captured
session `cs`. -/
def newTopic {W : Type} (w : W) (cs : ChatSession) : Run W :=
  { world := w, cs := { cs with History := getInitialTopic },
    effects := [Effect.JSON 200 [("message", HValue.str "OK")]],
    exit := Exit.returned }

/-- The functions `ping` and `handler` (main.go 114-124) write a fixed JSON body
and touch no session. -/
def fixedJSON (message : String) : List Effect :=
  [Effect.JSON 200 [("message", HValue.str message)]]

/-! ## The process -/

/-- The long-lived state of the process built by `main` (main.go 30-46): the
state behind the SDK clients and the three `ChatSession` copies captured by
`generativeAi(*cs)`, `lineCallback(bot, channelSecret, *cs)` and
`newTopic(*cs)`. -/
structure Server (W : Type) where
  world : W
  questionCs : ChatSession
  callbackCs : ChatSession
  newTopicCs : ChatSession

/-- The state right after `main` has registered the routes: each handler got a
copy of `*cs`, whose history is the seed. -/
def Server.start {W : Type} (w : W) : Server W :=
  { world := w, questionCs := initialChat, callbackCs := initialChat,
    newTopicCs := initialChat }

/-- One HTTP request routed by `main` (main.go 42-46).  For `/callback` the two
fields are the results of `webhook.ParseRequest` on it. -/
inductive Request where
  | ping
  | root
  | question (q : String)
  | callback (cb : Option CallbackRequest) (err : Option Error)
  | newTopic
deriving DecidableEq, Repr

/-- The outcome of serving one request: what the handler did, how it ended, and
the process state afterwards; `next = none` when the process has exited. -/
structure Served (W : Type) where
  effects : List Effect
  exit : Exit
  next : Option (Server W)

/-- What remains of the process after a handler run that started in `s` and
left `s1`: nothing after `log.Fatal`; after a return, or after a panic (which
the recovery middleware of `gin.Default()`, main.go 19, confines to the
request), the process goes on with `s1`. -/
def afterExit {W : Type} (exit : Exit) (s1 : Server W) : Option (Server W) :=
  match exit with
  | Exit.fatal => none
  | _ => some s1

/-- Routing of one request to its handler (main.go 42-46). -/
def serve {W : Type} (env : Env W) (s : Server W) : Request → Served W
  | Request.ping => { effects := fixedJSON "pong", exit := Exit.returned, next := some s }
  | Request.root => { effects := fixedJSON "OK", exit := Exit.returned, next := some s }
  | Request.question q =>
    let r := generativeAi env s.world s.questionCs q
    { effects := r.effects, exit := r.exit,
      next := afterExit r.exit { s with world := r.world, questionCs := r.cs } }
  | Request.callback cb err =>
    let r := lineCallback env s.world s.callbackCs cb err
    { effects := r.effects, exit := r.exit,
      next := afterExit r.exit { s with world := r.world, callbackCs := r.cs } }
  | Request.newTopic =>
    let r : Run W := newTopic s.world s.newTopicCs
    { effects := r.effects, exit := r.exit,
      next := afterExit r.exit { s with world := r.world, newTopicCs := r.cs } }

/-- Requests served one after the other; the answers of those that were served.
Requests arriving after the process has exited get no entry. -/
def serveAll {W : Type} (env : Env W) : Server W → List Request → List (Served W)
  | _, [] => []
  | s, req :: rest =>
    let served := serve env s req
    match served.next with
    | none => [served]
    | some s1 => served :: serveAll env s1 rest

/-- The process state after a list of requests, `none` once it has exited. -/
def stateAfter {W : Type} (env : Env W) : Server W → List Request → Option (Server W)
  | s, [] => some s
  | s, req :: rest =>
    match (serve env s req).next with
    | none => none
    | some s1 => stateAfter env s1 rest

/-! ## A scripted SDK -/

/-- The state behind the scripted SDK: the answers `(resp, err)` the AI backend
will give to the coming calls, in order, and the histories it has been sent so
far, in order. -/
structure Backend where
  script : List (Option GenerateContentResponse × Option Error)
  received : List (List Content)
deriving DecidableEq, Repr

/-- Modelled from the spec: `genai.ChatSession.SendMessage` is a method of the
generative-ai-go SDK, whose source is not part of the repository.  Following
section 4.3 steps 2-5 of the specification: a `user` turn holding the prompt is
appended, the backend is invoked with the full history, on success a `model`
turn holding the first candidate's first content part is appended, and on
failure (an error, or no candidate or no content part) the appended user turn
is rolled back.  The backend's answer is returned to the caller as it came. -/
def scriptedSendMessage (w : Backend) (cs : ChatSession) (parts : List Part) :
    SendReturn Backend :=
  let history := cs.History ++ [{ Parts := parts, Role := "user" }]
  let answer : Option GenerateContentResponse × Option Error :=
    match w.script with
    | [] => (none, some (Error.other "backend unavailable"))
    | a :: _ => a
  let w1 : Backend := { script := w.script.tail, received := w.received ++ [history] }
  match answer.2, firstPart answer.1 with
  | none, Except.ok replyText =>
    { world := w1, cs := { History := history ++ [{ Parts := [replyText], Role := "model" }] },
      resp := answer.1, err := answer.2 }
  | _, _ => { world := w1, cs := cs, resp := answer.1, err := answer.2 }

/-- Modelled from the spec: `bot.ReplyMessage` is a method of the LINE SDK,
whose source is not part of the repository.  Section 6 of the specification
makes the outbound client fire-and-forget; here every delivery succeeds. -/
def scriptedReplyMessage (w : Backend) (_req : ReplyMessageRequest) : ReplyReturn Backend :=
  { world := w, err := none }

/-- The scripted SDK. -/
def scripted : Env Backend :=
  { SendMessage := scriptedSendMessage, ReplyMessage := scriptedReplyMessage }

/-- A backend answer `(resp, nil)` with one candidate holding one text part. -/
def answers (text : String) : Option GenerateContentResponse × Option Error :=
  (some { Candidates := [some { Content := some { Parts := [Part.Text text], Role := "model" } }] },
   none)

/-- A backend answer `(nil, err)`. -/
def fails (msg : String) : Option GenerateContentResponse × Option Error :=
  (none, some (Error.other msg))

/-- A backend answer `(resp, nil)` whose candidate list is empty. -/
def answersNothing : Option GenerateContentResponse × Option Error :=
  (some { Candidates := [] }, none)

/-- A backend answer `(resp, nil)` whose only candidate has a content without
parts. -/
def answersNoParts : Option GenerateContentResponse × Option Error :=
  (some { Candidates := [some { Content := some { Parts := [], Role := "model" } }] }, none)

/-- The prompts of the AI-backend calls among the effects, in order. -/
def sendCalls : List Effect → List (List Part)
  | [] => []
  | Effect.SendMessage parts :: rest => parts :: sendCalls rest
  | _ :: rest => sendCalls rest

/-- The reply requests among the effects, in order. -/
def replies : List Effect → List ReplyMessageRequest
  | [] => []
  | Effect.ReplyMessage req :: rest => req :: replies rest
  | _ :: rest => replies rest

/-- The HTTP status codes written by the effects (`c.Status` and `c.JSON`), in
order. -/
def statusCodes : List Effect → List Nat
  | [] => []
  | Effect.Status code :: rest => code :: statusCodes rest
  | Effect.JSON code _ :: rest => code :: statusCodes rest
  | _ :: rest => statusCodes rest

/-- A webhook batch holding one text message event. -/
def textBatch (ReplyToken Text : String) : Option CallbackRequest :=
  some { Events := [Event.MessageEvent ReplyToken (MessageContent.TextMessageContent Text)] }

/-- The process right after start-up, in front of a backend that will give the
listed answers. -/
def freshServer (script : List (Option GenerateContentResponse × Option Error)) :
    Server Backend :=
  Server.start { script := script, received := [] }

/-- A turn with role `user` holding one text part. -/
def userTurn (text : String) : Content :=
  { Parts := [Part.Text text], Role := "user" }

/-- A turn with role `model` holding one text part. -/
def modelTurn (text : String) : Content :=
  { Parts := [Part.Text text], Role := "model" }

/-- A webhook request whose signature does not verify: `webhook.ParseRequest`
(main.go 52) returns no callback and its own package's invalid-signature error,
`webhook.ErrInvalidSignature`. -/
def invalidSignatureRequest : Request :=
  Request.callback none (some Error.webhookErrInvalidSignature)

/-! ## Theorems -/

/-- C1, as stated, fails.  On a freshly started process whose backend answers
the first call with an error: `cs.SendMessage` returns that error, `/question?q=hi`
ends the process (`log.Fatal`) after writing neither a status nor a body, the
later `/question?q=hi2` is never served, and a webhook text event does not
return normally either. -/
theorem backend_error_not_survived :
    (scripted.SendMessage (freshServer [fails "quota", answers "hello"]).world initialChat
        [Part.Text "hi"]).err = some (Error.other "quota")
    ∧ (serve scripted (freshServer [fails "quota", answers "hello"]) (Request.question "hi")).exit
        = Exit.fatal
    ∧ statusCodes (serve scripted (freshServer [fails "quota", answers "hello"])
        (Request.question "hi")).effects = []
    ∧ (serveAll scripted (freshServer [fails "quota", answers "hello"])
        [Request.question "hi", Request.question "hi2"]).length = 1
    ∧ (serve scripted (freshServer [fails "quota", answers "hello"])
        (Request.callback (textBatch "token" "hi") none)).exit ≠ Exit.returned := by
  refine ⟨rfl, rfl, rfl, rfl, ?_⟩
  decide

/-- C1, amended.  Whenever `cs.SendMessage` returns an error, the handler logs
it with `log.Fatal`, which ends the process.  For `/question`: the only effects
are the backend call and the fatal log line (no status, no body), and of the
requests from this one on only this one is served.  For a webhook text event:
the only effects are the backend call and the fatal log line, no reply is sent,
the handler does not return, and the remaining events of the batch are not
processed. -/
theorem backend_error_is_fatal {W : Type} (env : Env W) (s : Server W) (q : String)
    (later : List Request) (w : W) (cs : ChatSession) (r t : String) (rest : List Event)
    (e1 e2 : Error)
    (hq : (env.SendMessage s.world s.questionCs [Part.Text q]).err = some e1)
    (hc : (env.SendMessage w cs [Part.Text t]).err = some e2) :
    (serve env s (Request.question q)).effects
        = [Effect.SendMessage [Part.Text q], Effect.LogFatal e1]
    ∧ (serve env s (Request.question q)).exit = Exit.fatal
    ∧ statusCodes (serve env s (Request.question q)).effects = []
    ∧ (serveAll env s (Request.question q :: later)).length = 1
    ∧ (lineCallbackEvents env w cs
        (Event.MessageEvent r (MessageContent.TextMessageContent t) :: rest)).effects
        = [Effect.SendMessage [Part.Text t], Effect.LogFatal e2]
    ∧ (lineCallbackEvents env w cs
        (Event.MessageEvent r (MessageContent.TextMessageContent t) :: rest)).exit = Exit.fatal
    ∧ replies (lineCallbackEvents env w cs
        (Event.MessageEvent r (MessageContent.TextMessageContent t) :: rest)).effects = [] := by
  have hserve : (serve env s (Request.question q)).next = none := by
    simp [serve, generativeAi, hq, afterExit]
  refine ⟨?_, ?_, ?_, ?_, ?_, ?_, ?_⟩
  · simp [serve, generativeAi, hq]
  · simp [serve, generativeAi, hq]
  · simp [serve, generativeAi, hq, statusCodes]
  · simp [serveAll, hserve]
  · simp [lineCallbackEvents, lineCallbackEvent, hc]
  · simp [lineCallbackEvents, lineCallbackEvent, hc]
  · simp [lineCallbackEvents, lineCallbackEvent, hc, replies]

/-- Witness for `backend_error_is_fatal`: a fresh process whose backend is out
of quota. -/
theorem backend_error_is_fatal_witness :
    (scripted.SendMessage (freshServer [fails "quota"]).world
        (freshServer [fails "quota"]).questionCs [Part.Text "hi"]).err
        = some (Error.other "quota")
    ∧ (serve scripted (freshServer [fails "quota"]) (Request.question "hi")).effects
        = [Effect.SendMessage [Part.Text "hi"], Effect.LogFatal (Error.other "quota")]
    ∧ (serveAll scripted (freshServer [fails "quota"])
        [Request.question "hi", Request.question "hi2", Request.ping]).length = 1
    ∧ (lineCallbackEvents scripted (freshServer [fails "quota"]).world initialChat
        [Event.MessageEvent "token" (MessageContent.TextMessageContent "hi"),
         Event.MessageEvent "token2" (MessageContent.StickerMessageContent "1" "STATIC")]).exit
        = Exit.fatal :=
  have h := backend_error_is_fatal scripted (freshServer [fails "quota"]) "hi"
    [Request.question "hi2", Request.ping] (freshServer [fails "quota"]).world initialChat
    "token" "hi" [Event.MessageEvent "token2" (MessageContent.StickerMessageContent "1" "STATIC")]
    (Error.other "quota") (Error.other "quota") rfl rfl
  ⟨rfl, h.1, h.2.2.2.1, h.2.2.2.2.2.1⟩

/-- C2: the code at the failing input.  With `err == nil` and an empty candidate
list, `resp.Candidates[0]` is evaluated all the same: `/question` and the webhook
text event both end in the index-out-of-range panic, and so they do when the
first candidate's content has no parts. A backend error ends differently
(`log.Fatal`). -/
theorem empty_candidates_panic :
    (scripted.SendMessage (freshServer [answersNothing]).world initialChat
        [Part.Text "hi"]).err = none
    ∧ (scripted.SendMessage (freshServer [answersNothing]).world initialChat
        [Part.Text "hi"]).resp = some { Candidates := [] }
    ∧ (serve scripted (freshServer [answersNothing]) (Request.question "hi")).exit
        = Exit.panicked Panic.indexOutOfRange
    ∧ (serve scripted (freshServer [answersNothing])
        (Request.callback (textBatch "token" "hi") none)).exit
        = Exit.panicked Panic.indexOutOfRange
    ∧ (serve scripted (freshServer [answersNoParts]) (Request.question "hi")).exit
        = Exit.panicked Panic.indexOutOfRange
    ∧ (serve scripted (freshServer [answersNoParts])
        (Request.callback (textBatch "token" "hi") none)).exit
        = Exit.panicked Panic.indexOutOfRange
    ∧ (serve scripted (freshServer [fails "quota"]) (Request.question "hi")).exit
        = Exit.fatal :=
  ⟨rfl, rfl, rfl, rfl, rfl, rfl, rfl⟩

/-- C3: the code at the failing input.  `/newTopic` replaces the history of the
session copy captured by `newTopic` and of no other: whatever the SDK and the
state, the sessions of `/question` and `/callback` are the same after it as
before.  So after `/question?q=a` (answered "r1"), `/newTopic`,
`/question?q=hi`, the second history sent to the backend is the seed, the first
exchange, and the new user turn; that is not the seed plus one user turn. -/
theorem newTopic_resets_only_its_own_copy :
    (∀ (W : Type) (env : Env W) (s : Server W),
        (serve env s Request.newTopic).next
          = some { s with newTopicCs := { History := getInitialTopic } })
    ∧ (stateAfter scripted (freshServer [answers "r1", answers "r2"])
          [Request.question "a", Request.newTopic, Request.question "hi"]).map
          (fun s => s.world.received)
        = some [getInitialTopic ++ [userTurn "a"],
                getInitialTopic ++ [userTurn "a", modelTurn "r1", userTurn "hi"]]
    ∧ getInitialTopic ++ [userTurn "a", modelTurn "r1", userTurn "hi"]
        ≠ getInitialTopic ++ [userTurn "hi"] := by
  refine ⟨?_, rfl, ?_⟩
  · intro W env s
    rfl
  · simp [userTurn, modelTurn]

/-- C7.  For a webhook event that is neither a text nor a sticker message (a
message event of another content type, or an event that is no message event),
met at any iteration of the loop: the handler makes no AI-backend call and sends
no reply for it, does nothing beyond logging the unsupported content type,
leaves the session (history) and the state behind the clients as they were, and
goes on to process the remaining events of the batch from that same state. -/
theorem unsupported_event_skipped {W : Type} (env : Env W) (w : W) (cs : ChatSession)
    (e : Event) (rest : List Event)
    (hText : ∀ r t, e ≠ Event.MessageEvent r (MessageContent.TextMessageContent t))
    (hSticker : ∀ r X Y, e ≠ Event.MessageEvent r (MessageContent.StickerMessageContent X Y)) :
    sendCalls (lineCallbackEvent env w cs e).effects = []
    ∧ replies (lineCallbackEvent env w cs e).effects = []
    ∧ (∀ x ∈ (lineCallbackEvent env w cs e).effects, ∃ ty,
        x = Effect.LogPrintf "Unsupported message content: %T\n" (LogArg.typeOf ty))
    ∧ (lineCallbackEvent env w cs e).cs = cs
    ∧ (lineCallbackEvent env w cs e).world = w
    ∧ (lineCallbackEvent env w cs e).exit = Exit.returned
    ∧ lineCallbackEvents env w cs (e :: rest)
      = { world := (lineCallbackEvents env w cs rest).world,
          cs := (lineCallbackEvents env w cs rest).cs,
          effects := (lineCallbackEvent env w cs e).effects
                      ++ (lineCallbackEvents env w cs rest).effects,
          exit := (lineCallbackEvents env w cs rest).exit } := by
  cases e with
  | other ty => simp [lineCallbackEvent, lineCallbackEvents, sendCalls, replies]
  | MessageEvent r m =>
    cases m with
    | TextMessageContent t => exact absurd rfl (hText r t)
    | StickerMessageContent X Y => exact absurd rfl (hSticker r X Y)
    | other ty => simp [lineCallbackEvent, lineCallbackEvents, sendCalls, replies]

/-- Witness for `unsupported_event_skipped`: an image message event followed by a
sticker message event. -/
theorem unsupported_event_skipped_witness :
    (∀ r t, Event.MessageEvent "token" (MessageContent.other "webhook.ImageMessageContent")
        ≠ Event.MessageEvent r (MessageContent.TextMessageContent t))
    ∧ (∀ r X Y, Event.MessageEvent "token" (MessageContent.other "webhook.ImageMessageContent")
        ≠ Event.MessageEvent r (MessageContent.StickerMessageContent X Y))
    ∧ sendCalls (lineCallbackEvent scripted (freshServer []).world initialChat
        (Event.MessageEvent "token"
          (MessageContent.other "webhook.ImageMessageContent"))).effects = []
    ∧ replies (lineCallbackEvents scripted (freshServer []).world initialChat
        [Event.MessageEvent "token" (MessageContent.other "webhook.ImageMessageContent"),
         Event.MessageEvent "token2" (MessageContent.StickerMessageContent "1" "STATIC")]).effects
      = [{ ReplyToken := "token2",
           Messages := [{ Text := "sticker id is 1, stickerResourceType is STATIC" }] }] :=
  have h := unsupported_event_skipped scripted (freshServer []).world initialChat
    (Event.MessageEvent "token" (MessageContent.other "webhook.ImageMessageContent"))
    [Event.MessageEvent "token2" (MessageContent.StickerMessageContent "1" "STATIC")]
    (fun _ _ hne => Event.noConfusion hne (fun _ hm => MessageContent.noConfusion hm))
    (fun _ _ _ hne => Event.noConfusion hne (fun _ hm => MessageContent.noConfusion hm))
  ⟨fun _ _ hne => Event.noConfusion hne (fun _ hm => MessageContent.noConfusion hm),
    fun _ _ _ hne => Event.noConfusion hne (fun _ hm => MessageContent.noConfusion hm),
    h.1, rfl⟩

/-- C8: the code at the failing input.  A webhook request with an invalid
signature is parsed by `webhook.ParseRequest`, which reports it with
`webhook.ErrInvalidSignature`; the handler compares the error with
`linebot.ErrInvalidSignature`, another value, so the request is answered 500,
not 400, whatever the SDK and the state of the process.  No event is processed
(no AI-backend call, no reply, process state unchanged), the error is logged
and the handler returns.  The only parse error answered 400 is the value
`linebot.ErrInvalidSignature` itself. -/
theorem invalid_signature_answered_500 {W : Type} (env : Env W) (s : Server W) :
    (serve env s invalidSignatureRequest).effects
      = [Effect.LogPrintf "Cannot parse request: %+v\n"
            (LogArg.err Error.webhookErrInvalidSignature),
         Effect.Status 500]
    ∧ statusCodes (serve env s invalidSignatureRequest).effects = [500]
    ∧ statusCodes (serve env s invalidSignatureRequest).effects ≠ [400]
    ∧ sendCalls (serve env s invalidSignatureRequest).effects = []
    ∧ replies (serve env s invalidSignatureRequest).effects = []
    ∧ (serve env s invalidSignatureRequest).exit = Exit.returned
    ∧ (serve env s invalidSignatureRequest).next = some s
    ∧ (∀ (cb : Option CallbackRequest) (e : Error),
        statusCodes (lineCallback env s.world s.callbackCs cb (some e)).effects = [400]
          ↔ e = Error.linebotErrInvalidSignature)
    ∧ (∀ (cb : Option CallbackRequest) (e : Error),
        statusCodes (lineCallback env s.world s.callbackCs cb (some e)).effects = [500]
          ↔ e ≠ Error.linebotErrInvalidSignature) := by
  refine ⟨rfl, rfl, ?_, rfl, rfl, rfl, rfl, ?_, ?_⟩
  · simp [invalidSignatureRequest, serve, lineCallback, statusCodes]
  · intro cb e
    by_cases h : e = Error.linebotErrInvalidSignature
    · simp [lineCallback, h, statusCodes]
    · simp [lineCallback, h, statusCodes]
  · intro cb e
    by_cases h : e = Error.linebotErrInvalidSignature
    · simp [lineCallback, h, statusCodes]
    · simp [lineCallback, h, statusCodes]

/-- C9.  Whatever the state of the process, `/newTopic` leaves the history of
the `newTopic` handler equal to `getInitialTopic()` and changes nothing else;
a second consecutive `/newTopic` leaves the very same state; each call writes
status 200 with body `message: "OK"` and returns; and the seed is a non-empty
sequence of exactly two turns, a `user` turn followed by a `model` turn. -/
theorem newTopic_idempotent_seed {W : Type} (env : Env W) (s : Server W) :
    stateAfter env s [Request.newTopic]
      = some { s with newTopicCs := { History := getInitialTopic } }
    ∧ stateAfter env s [Request.newTopic, Request.newTopic]
      = stateAfter env s [Request.newTopic]
    ∧ (newTopic s.world s.newTopicCs).cs.History = getInitialTopic
    ∧ (newTopic s.world (newTopic s.world s.newTopicCs).cs).cs.History = getInitialTopic
    ∧ (serve env s Request.newTopic).effects
      = [Effect.JSON 200 [("message", HValue.str "OK")]]
    ∧ statusCodes (serve env s Request.newTopic).effects = [200]
    ∧ (serve env s Request.newTopic).exit = Exit.returned
    ∧ getInitialTopic ≠ []
    ∧ getInitialTopic.length = 2
    ∧ getInitialTopic.map (fun turn => turn.Role) = ["user", "model"] := by
  refine ⟨rfl, rfl, rfl, rfl, rfl, rfl, rfl, ?_, rfl, rfl⟩
  simp [getInitialTopic]

end GeminiLineBot
